import Mathlib

/-! goproxy: the QUIC proxy dialer (httpproxy/proxy/quic.go)

A shallow embedding of the constructor QUIC and of the method Quic.Dial.

Conventions of the embedding.

* Go strings are Lean strings. The byte-level library routines used by the
  source (index of a byte, substring search) only ever look for ASCII bytes
  and ASCII needles, so on text they agree with the character-level versions
  defined here.
* A nil-able Go value (pointer, interface) is an Option; none is nil.
* The transport h.transport.RoundTripOpt is an external, stateful
  collaborator. It is a parameter: an arbitrary transition function on an
  arbitrary state type. Dial threads that state and records every call it
  makes, with the answer it got, in a trace.
* The request is a value: both calls of one Dial receive the request the
  source passes by pointer, and a transport that writes to it is not
  modelled.
-/

namespace Goproxy

/-! ## Strings -/

/-- Go bytealg.IndexByteString on a character list: index of the first
occurrence of c, or -1. -/
def indexByteList : List Char → Char → Int
  | [], _ => -1
  | x :: xs, c =>
    if x = c then 0
    else
      let r := indexByteList xs c
      if r < 0 then -1 else r + 1

/-- Go bytealg.LastIndexByteString on a character list: index of the last
occurrence of c, or -1. -/
def lastIndexByteList : List Char → Char → Int
  | [], _ => -1
  | x :: xs, c =>
    let r := lastIndexByteList xs c
    if r < 0 then (if x = c then 0 else -1) else r + 1

/-- Go slice expression s[i:j] on a character list. -/
def sliceList (s : List Char) (i j : Nat) : List Char :=
  (s.take j).drop i

/-- Go strings.HasPrefix on character lists. -/
def hasPrefixList : List Char → List Char → Bool
  | _, [] => true
  | [], _ :: _ => false
  | x :: xs, y :: ys => x == y && hasPrefixList xs ys

/-- Go strings.Contains on character lists: substr occurs at some offset. -/
def containsList : List Char → List Char → Bool
  | [], sub => sub.isEmpty
  | x :: xs, sub => hasPrefixList (x :: xs) sub || containsList xs sub

/-- Go strings.Contains. -/
def Contains (s substr : String) : Bool :=
  containsList s.data substr.data

/-! ## Errors -/

/-- A Go error value, as far as Dial can observe it: either the sentinel
h2quic.ErrNoCachedConn (recognised by identity), or any other error, given
by whether it has a method Timeout() bool (and what that returns) and by
its Error() text. -/
inductive GoError where
  | ErrNoCachedConn : GoError
  | other (timeout : Option Bool) (msg : String) : GoError
deriving DecidableEq, Repr

/-- Go errors.New: a plain error with the given text and no Timeout method. -/
def errorsNew (msg : String) : GoError :=
  GoError.other none msg

/-! ## net.SplitHostPort and net.JoinHostPort -/

/-- Go net.AddrError. -/
structure AddrError where
  Err : String
  Addr : String
deriving DecidableEq, Repr

/-- The common end of net.SplitHostPort, after host and the offsets j, k
have been fixed: no bracket may remain, and the port is what follows the
last colon (at index i). -/
def splitHostPortRest (hostport : String) (host : List Char) (i : Int) (j k : Nat) :
    String × String × Option AddrError :=
  let hp := hostport.data
  if indexByteList (hp.drop j) '[' ≥ 0 then
    ("", "", some { Err := "unexpected '[' in address", Addr := hostport })
  else if indexByteList (hp.drop k) ']' ≥ 0 then
    ("", "", some { Err := "unexpected ']' in address", Addr := hostport })
  else
    (String.mk host, String.mk (hp.drop (i + 1).toNat), none)

/-- Go net.SplitHostPort, returning (host, port, err). -/
def SplitHostPort (hostport : String) : String × String × Option AddrError :=
  let missingPort := "missing port in address"
  let tooManyColons := "too many colons in address"
  let addrErr := fun (addr why : String) =>
    (("", "", some { Err := why, Addr := addr }) : String × String × Option AddrError)
  let hp := hostport.data
  -- The port starts after the last colon.
  let i := lastIndexByteList hp ':'
  if i < 0 then addrErr hostport missingPort
  else if hp.head? = some '[' then
    -- Expect the first closing bracket just before the last colon.
    let e := indexByteList hp ']'
    if e < 0 then addrErr hostport "missing ']' in address"
    else if e + 1 = hp.length then
      -- There cannot be a colon behind the bracket now.
      addrErr hostport missingPort
    else if e + 1 = i then
      -- The expected result.
      splitHostPortRest hostport (sliceList hp 1 e.toNat) i 1 (e + 1).toNat
    else if hp.get? (e + 1).toNat = some ':' then addrErr hostport tooManyColons
    else addrErr hostport missingPort
  else
    let host := sliceList hp 0 i.toNat
    if indexByteList host ':' ≥ 0 then addrErr hostport tooManyColons
    else splitHostPortRest hostport host i 0 0

/-- Go net.JoinHostPort. -/
def JoinHostPort (host port : String) : String :=
  -- We assume that host is a literal IPv6 address if host has colons.
  if indexByteList host.data ':' ≥ 0 then "[" ++ host ++ "]:" ++ port
  else host ++ ":" ++ port

/-! ## The data of a Dial call -/

/-- A dynamic value behind a Go interface (io.ReadCloser, net.Conn): an
identity, and whether its dynamic type implements quic.Stream. -/
structure Dyn where
  id : Nat
  isStream : Bool
deriving DecidableEq, Repr

/-- Go url.URL, the fields the source sets and their neighbours. -/
structure URL where
  Scheme : String
  Opaque : String
  Host : String
  Path : String
  RawQuery : String
deriving DecidableEq, Repr

/-- Go http.Request, the fields that matter on the client side. -/
structure Request where
  Method : String
  URL : Option URL
  Header : List (String × List String)
  Body : Option Dyn
  Host : String
deriving DecidableEq, Repr

/-- Go http.Response, the fields Dial reads. -/
structure Response where
  Status : String
  StatusCode : Int
  Body : Option Dyn
deriving DecidableEq, Repr

/-- Go h2quic.RoundTripOpt. -/
structure RoundTripOpt where
  OnlyCachedConn : Bool
deriving DecidableEq, Repr

/-- Go http.MethodConnect. -/
def MethodConnect : String := "CONNECT"

/-- Go http.StatusOK. -/
def StatusOK : Int := 200

/-- The transport method RoundTripOpt as an external collaborator: from the
transport state, a request and the option, a response, an error and the next
transport state. -/
abbrev RoundTripFn (σ : Type) : Type :=
  σ → Request → RoundTripOpt → (Option Response × Option GoError) × σ

/-- One RoundTripOpt call as Dial issued it, with what came back. -/
structure Call where
  req : Request
  opt : RoundTripOpt
  resp : Option Response
  err : Option GoError
deriving DecidableEq, Repr

/-- How a Dial call ends: it returns (conn, err), or it dereferences a nil
response (the transport answered nil, nil). -/
inductive DialReturn where
  | ret (conn : Option Dyn) (err : Option GoError) : DialReturn
  | nilDeref : DialReturn
deriving DecidableEq, Repr

/-- How a Dial call ends, the RoundTripOpt calls it issued in order, and the
transport state it leaves. -/
structure DialOutcome (σ : Type) where
  result : DialReturn
  trace : List Call
  state : σ

/-- The type assertion resp.Body.(quic.Stream) in its two-result form. -/
def assertStream (body : Option Dyn) : Option Dyn × Bool :=
  match body with
  | none => (none, false)
  | some d => if d.isStream then (some d, true) else (none, false)

/-! ## The client -/

/-- Go proxy.Auth. -/
structure Auth where
  User : String
  Password : String
deriving DecidableEq, Repr

/-- Go quic.Config, the fields the constructor sets; durations are
time.Duration values, in nanoseconds. -/
structure Config where
  HandshakeTimeout : Int
  IdleTimeout : Int
  RequestConnectionIDTruncation : Bool
  KeepAlive : Bool
deriving DecidableEq, Repr

/-- Go time.Second. -/
def Second : Int := 1000000000

/-- Go time.Minute. -/
def Minute : Int := 60 * Second

/-- The arguments of one call of the library function quic.DialAddr. -/
structure DialAddrCall where
  addr : String
  tlsConfig : Option Nat
  cfg : Option Config
deriving DecidableEq, Repr

/-- Go h2quic.RoundTripper, as configured by the constructor. The hook
DialAddr is given by the call of quic.DialAddr it makes. -/
structure RoundTripper where
  DisableCompression : Bool
  QuicConfig : Option Config
  KeepAliveTimeout : Int
  ResponseHeaderTimeout : Int
  DialAddr : String → Option Nat → Option Config → DialAddrCall
  GetClientKey : String → String

/-- The struct Quic. The collaborators forward and resolver are interface
values, kept as handles. -/
structure Quic where
  user : String
  password : String
  network : String
  addr : String
  hostname : String
  forward : Option Nat
  resolver : Option Nat
  transport : Option RoundTripper

/-- The constructor QUIC, returning (Dialer, error). -/
def QUIC (network addr : String) (auth : Option Auth) (forward resolver : Option Nat) :
    Option Quic × Option GoError :=
  let sp := SplitHostPort addr
  let hostname := if sp.2.2 = none then sp.1 else addr
  let addr := if sp.2.2 = none then addr else JoinHostPort addr "443"
  let s : Quic :=
    { user := "",
      password := "",
      network := network,
      addr := addr,
      hostname := hostname,
      forward := forward,
      resolver := resolver,
      transport := some
        { DisableCompression := true,
          QuicConfig := some
            { HandshakeTimeout := 5 * Second,
              IdleTimeout := 10 * Second,
              RequestConnectionIDTruncation := true,
              KeepAlive := true },
          KeepAliveTimeout := 30 * Minute,
          ResponseHeaderTimeout := 5 * Second,
          DialAddr := fun _address tlsConfig cfg =>
            { addr := addr, tlsConfig := tlsConfig, cfg := cfg },
          GetClientKey := fun _ => addr } }
  let s := match auth with
    | some a => { s with user := a.User, password := a.Password }
    | none => s
  (some s, none)

/-- Lines 91 to 113 of Dial: the value of shouldRetry after the switch on
the error of the optimistic call. -/
def shouldRetry (err : Option GoError) : Bool :=
  match err with
  | none => false
  | some GoError.ErrNoCachedConn => true
  | some (GoError.other timeout errmsg) =>
    if timeout = some true then true
    else if Contains errmsg "PublicReset:" then true
    else if Contains errmsg "TooMany" then true
    else if Contains errmsg "cannot read " then true
    else false

/-- Lines 79 to 87 of Dial: the request it builds for the destination addr.
The fields the literal leaves out have their zero value. -/
def connectRequest (addr : String) : Request :=
  { Method := MethodConnect,
    Host := addr,
    Header := [],
    URL := some { Scheme := "https", Opaque := "", Host := addr, Path := "", RawQuery := "" },
    Body := none }

/-- The method Quic.Dial, run against the transport rt from transport
state s. -/
def Dial {σ : Type} (h : Quic) (rt : RoundTripFn σ) (s : σ) (network addr : String) :
    DialOutcome σ :=
  if network = "tcp" ∨ network = "tcp6" ∨ network = "tcp4" then
    let req := connectRequest addr
    let r1 := rt s req { OnlyCachedConn := true }
    let c1 : Call := { req := req, opt := { OnlyCachedConn := true }, resp := r1.1.1, err := r1.1.2 }
    -- resp, err, the calls so far and the transport state, after the optional full call
    let after : Option Response × Option GoError × List Call × σ :=
      if shouldRetry r1.1.2 then
        let r2 := rt r1.2 req { OnlyCachedConn := false }
        (r2.1.1, r2.1.2,
          [c1, { req := req, opt := { OnlyCachedConn := false }, resp := r2.1.1, err := r2.1.2 }],
          r2.2)
      else (r1.1.1, r1.1.2, [c1], r1.2)
    let resp := after.1
    let err := after.2.1
    let trace := after.2.2.1
    let state := after.2.2.2
    match err with
    | some e => { result := DialReturn.ret none (some e), trace := trace, state := state }
    | none =>
      match resp with
      | none => { result := DialReturn.nilDeref, trace := trace, state := state }
      | some resp =>
        if resp.StatusCode ≠ StatusOK then
          { result := DialReturn.ret none (some (errorsNew
              ("proxy: failed to read greeting from HTTP proxy at " ++ h.addr ++ ": " ++ resp.Status))),
            trace := trace, state := state }
        else
          let a := assertStream resp.Body
          if (!a.2) || a.1 = none then
            { result := DialReturn.ret none (some (errorsNew
                "proxy: failed to convert resp.Body to a quic.Stream")),
              trace := trace, state := state }
          else
            { result := DialReturn.ret a.1 none, trace := trace, state := state }
  else
    { result := DialReturn.ret none (some (errorsNew
        ("proxy: no support for QUIC proxy connections of type " ++ network))),
      trace := [], state := s }

/-! ## Sample clients and transports -/

/-- A client as QUIC builds it for the proxy address proxy.example:443,
without its transport hooks. -/
def sampleClient : Quic :=
  { user := "u", password := "p", network := "quic", addr := "proxy.example:443",
    hostname := "proxy.example", forward := none, resolver := none, transport := none }

/-- A scripted transport: the state is the list of answers still to give;
each call gives the next one, and an exhausted script answers with a plain
error. -/
def scripted : RoundTripFn (List (Option Response × Option GoError)) :=
  fun script _ _ =>
    match script with
    | [] => ((none, some (errorsNew "script exhausted")), [])
    | a :: rest => (a, rest)

/-- A tunnel stream as a response body. -/
def sampleStream : Dyn := { id := 7, isStream := true }

/-- A response body that is no quic.Stream. -/
def samplePlainBody : Dyn := { id := 8, isStream := false }

/-- The response 200 OK carrying the tunnel stream. -/
def okResponse : Response :=
  { Status := "200 OK", StatusCode := 200, Body := some sampleStream }

/-- A transient failure of the optimistic call by its text. -/
def cannotReadError : GoError :=
  GoError.other none "read udp 10.0.0.1:4433: cannot read from connection"

/-- A failure of the optimistic call that no rule classifies as transient. -/
def handshakeError : GoError :=
  GoError.other (some false) "CryptoHandshakeFailed: proof invalid"

/-- A client with the proxy address of sampleClient and every other stored
value different. -/
def otherClient : Quic :=
  { user := "alice", password := "secret", network := "udp", addr := "proxy.example:443",
    hostname := "other.example", forward := some 1, resolver := some 2, transport := none }

/-! ## Unfolding Dial -/

/-- The networks Dial accepts, in the order of the claims. -/
theorem tcp_family_iff (network : String) :
    (network = "tcp" ∨ network = "tcp4" ∨ network = "tcp6") ↔
      (network = "tcp" ∨ network = "tcp6" ∨ network = "tcp4") := by
  constructor <;> rintro (h | h | h) <;> simp [h]

/-- The trace of Dial on an accepted network: the optimistic call, then the
full call exactly when shouldRetry holds of the optimistic error. -/
theorem Dial_trace {σ : Type} (h : Quic) (rt : RoundTripFn σ) (s : σ) (network addr : String)
    (hn : network = "tcp" ∨ network = "tcp4" ∨ network = "tcp6") :
    (Dial h rt s network addr).trace =
      (let req := connectRequest addr
       let r1 := rt s req { OnlyCachedConn := true }
       let r2 := rt r1.2 req { OnlyCachedConn := false }
       if shouldRetry r1.1.2 then
         [{ req := req, opt := { OnlyCachedConn := true }, resp := r1.1.1, err := r1.1.2 },
          { req := req, opt := { OnlyCachedConn := false }, resp := r2.1.1, err := r2.1.2 }]
       else [{ req := req, opt := { OnlyCachedConn := true }, resp := r1.1.1, err := r1.1.2 }]) := by
  have hn2 := (tcp_family_iff network).1 hn
  simp only [Dial, if_pos hn2]
  generalize rt s (connectRequest addr) { OnlyCachedConn := true } = r1
  generalize rt r1.2 (connectRequest addr) { OnlyCachedConn := false } = r2
  obtain ⟨⟨resp1, err1⟩, s1⟩ := r1
  obtain ⟨⟨resp2, err2⟩, s2⟩ := r2
  cases hsr : shouldRetry err1
  · simp only [Bool.false_eq_true, if_false]
    rcases err1 with _ | e1
    · rcases resp1 with _ | p1
      · rfl
      · simp only []
        split_ifs <;> rfl
    · rfl
  · simp only [if_true]
    rcases err2 with _ | e2
    · rcases resp2 with _ | p2
      · rfl
      · simp only []
        split_ifs <;> rfl
    · rfl

/-- The result of Dial in terms of the last call of its trace, on an accepted
network: lines 119 to 132. -/
theorem Dial_result_of_last {σ : Type} (h : Quic) (rt : RoundTripFn σ) (s : σ)
    (network addr : String) (hn : network = "tcp" ∨ network = "tcp4" ∨ network = "tcp6") :
    ∃ c, (Dial h rt s network addr).trace.getLast? = some c ∧
      (Dial h rt s network addr).result =
        (match c.err with
         | some e => DialReturn.ret none (some e)
         | none =>
           match c.resp with
           | none => DialReturn.nilDeref
           | some resp =>
             if resp.StatusCode ≠ StatusOK then
               DialReturn.ret none (some (errorsNew
                 ("proxy: failed to read greeting from HTTP proxy at " ++ h.addr ++ ": "
                   ++ resp.Status)))
             else if (!(assertStream resp.Body).2) || (assertStream resp.Body).1 = none then
               DialReturn.ret none (some (errorsNew
                 "proxy: failed to convert resp.Body to a quic.Stream"))
             else DialReturn.ret (assertStream resp.Body).1 none) := by
  have hn2 := (tcp_family_iff network).1 hn
  rw [Dial_trace h rt s network addr hn]
  simp only [Dial, if_pos hn2]
  generalize rt s (connectRequest addr) { OnlyCachedConn := true } = r1
  generalize rt r1.2 (connectRequest addr) { OnlyCachedConn := false } = r2
  obtain ⟨⟨resp1, err1⟩, s1⟩ := r1
  obtain ⟨⟨resp2, err2⟩, s2⟩ := r2
  cases hsr : shouldRetry err1
  · refine ⟨{ req := connectRequest addr, opt := { OnlyCachedConn := true }, resp := resp1,
              err := err1 }, by simp, ?_⟩
    simp only [Bool.false_eq_true, if_false]
    rcases err1 with _ | e1
    · rcases resp1 with _ | p1
      · rfl
      · simp only []
        split_ifs <;> rfl
    · rfl
  · refine ⟨{ req := connectRequest addr, opt := { OnlyCachedConn := false }, resp := resp2,
              err := err2 }, by simp, ?_⟩
    simp only [if_true]
    rcases err2 with _ | e2
    · rcases resp2 with _ | p2
      · rfl
      · simp only []
        split_ifs <;> rfl
    · rfl

/-- Dial on a network outside the TCP family: lines 73 to 77. -/
theorem Dial_unsupported {σ : Type} (h : Quic) (rt : RoundTripFn σ) (s : σ)
    (network addr : String)
    (hn : ¬ (network = "tcp" ∨ network = "tcp4" ∨ network = "tcp6")) :
    Dial h rt s network addr =
      { result := DialReturn.ret none (some (errorsNew
          ("proxy: no support for QUIC proxy connections of type " ++ network))),
        trace := [], state := s } := by
  have hn2 : ¬ (network = "tcp" ∨ network = "tcp6" ∨ network = "tcp4") :=
    fun hc => hn ((tcp_family_iff network).2 hc)
  simp only [Dial, if_neg hn2]

/-- When shouldRetry is set: the error is the sentinel, or reports a timeout,
or its text holds one of the three markers. -/
theorem shouldRetry_some_iff (e : GoError) :
    shouldRetry (some e) = true ↔
      (e = GoError.ErrNoCachedConn ∨ (∃ msg, e = GoError.other (some true) msg) ∨
        ∃ t msg, e = GoError.other t msg ∧
          (Contains msg "PublicReset:" = true ∨ Contains msg "TooMany" = true ∨
            Contains msg "cannot read " = true)) := by
  cases e with
  | ErrNoCachedConn => simp [shouldRetry]
  | other t msg =>
    simp only [shouldRetry]
    constructor
    · intro hs
      by_cases h0 : t = some true
      · exact Or.inr (Or.inl ⟨msg, by rw [h0]⟩)
      · refine Or.inr (Or.inr ⟨t, msg, rfl, ?_⟩)
        simp only [h0, if_false] at hs
        by_cases h1 : Contains msg "PublicReset:" = true
        · exact Or.inl h1
        · by_cases h2 : Contains msg "TooMany" = true
          · exact Or.inr (Or.inl h2)
          · by_cases h3 : Contains msg "cannot read " = true
            · exact Or.inr (Or.inr h3)
            · simp [h1, h2, h3] at hs
    · rintro (hc | ⟨m, hm⟩ | ⟨t2, m, hm, hc⟩)
      · exact absurd hc (by simp)
      · cases hm
        simp
      · cases hm
        by_cases h0 : t = some true
        · simp [h0]
        · simp only [h0, if_false]
          rcases hc with hc | hc | hc
          · simp [hc]
          · simp [hc]
          · simp [hc]

/-- The text a ++ b contains b. -/
theorem containsList_append_right (a b : List Char) : containsList (a ++ b) b = true := by
  have hp : ∀ l : List Char, hasPrefixList l l = true := by
    intro l
    induction l with
    | nil => rfl
    | cons x xs ih => simp [hasPrefixList, ih]
  induction a with
  | nil =>
    cases b with
    | nil => rfl
    | cons x xs => simp [containsList, hp]
  | cons y ys ih =>
    show (hasPrefixList (y :: (ys ++ b)) b || containsList (ys ++ b) b) = true
    rw [ih, Bool.or_true]

/-! ## The claims -/

/-- C1: on a TCP-family network, when the optimistic RoundTripOpt call
(OnlyCachedConn = true) returns an error that is h2quic.ErrNoCachedConn, or
whose Timeout() is true, or whose text contains PublicReset:, TooMany or
cannot read , Dial issues exactly one further call: the trace is the
optimistic call followed by one call with OnlyCachedConn = false on the same
request, made from the transport state the optimistic call left. -/
theorem dial_transient_failure_one_full_call {σ : Type} (h : Quic) (rt : RoundTripFn σ)
    (s : σ) (network addr : String)
    (hn : network = "tcp" ∨ network = "tcp4" ∨ network = "tcp6") (e : GoError)
    (he : (rt s (connectRequest addr) { OnlyCachedConn := true }).1.2 = some e)
    (ht : e = GoError.ErrNoCachedConn ∨ (∃ msg, e = GoError.other (some true) msg) ∨
      ∃ t msg, e = GoError.other t msg ∧
        (Contains msg "PublicReset:" = true ∨ Contains msg "TooMany" = true ∨
          Contains msg "cannot read " = true)) :
    (Dial h rt s network addr).trace =
      [{ req := connectRequest addr, opt := { OnlyCachedConn := true },
         resp := (rt s (connectRequest addr) { OnlyCachedConn := true }).1.1, err := some e },
       { req := connectRequest addr, opt := { OnlyCachedConn := false },
         resp := (rt (rt s (connectRequest addr) { OnlyCachedConn := true }).2
           (connectRequest addr) { OnlyCachedConn := false }).1.1,
         err := (rt (rt s (connectRequest addr) { OnlyCachedConn := true }).2
           (connectRequest addr) { OnlyCachedConn := false }).1.2 }] := by
  rw [Dial_trace h rt s network addr hn]
  have hs : shouldRetry (rt s (connectRequest addr) { OnlyCachedConn := true }).1.2 = true := by
    rw [he]
    exact (shouldRetry_some_iff e).2 ht
  simp only []
  rw [if_pos hs, he]

/-- C2: on a TCP-family network, when the optimistic call returns an error
that is not h2quic.ErrNoCachedConn, does not report Timeout() = true and
whose text contains none of the three markers, Dial issues no second call
(its trace is the optimistic call alone) and returns a nil connection with
exactly that error. -/
theorem dial_fatal_failure_no_retry {σ : Type} (h : Quic) (rt : RoundTripFn σ)
    (s : σ) (network addr : String)
    (hn : network = "tcp" ∨ network = "tcp4" ∨ network = "tcp6")
    (t : Option Bool) (msg : String)
    (he : (rt s (connectRequest addr) { OnlyCachedConn := true }).1.2 =
      some (GoError.other t msg))
    (ht : t ≠ some true)
    (h1 : Contains msg "PublicReset:" = false) (h2 : Contains msg "TooMany" = false)
    (h3 : Contains msg "cannot read " = false) :
    (Dial h rt s network addr).trace =
        [{ req := connectRequest addr, opt := { OnlyCachedConn := true },
           resp := (rt s (connectRequest addr) { OnlyCachedConn := true }).1.1,
           err := some (GoError.other t msg) }] ∧
      (Dial h rt s network addr).result = DialReturn.ret none (some (GoError.other t msg)) := by
  have hs : shouldRetry (rt s (connectRequest addr) { OnlyCachedConn := true }).1.2 = false := by
    rw [he]
    simp [shouldRetry, ht, h1, h2, h3]
  have htr : (Dial h rt s network addr).trace =
      [{ req := connectRequest addr, opt := { OnlyCachedConn := true },
         resp := (rt s (connectRequest addr) { OnlyCachedConn := true }).1.1,
         err := some (GoError.other t msg) }] := by
    rw [Dial_trace h rt s network addr hn]
    simp only []
    rw [if_neg (by simp [hs]), he]
  refine ⟨htr, ?_⟩
  obtain ⟨c, hc, hres⟩ := Dial_result_of_last h rt s network addr hn
  rw [htr] at hc
  simp only [List.getLast?_singleton, Option.some.injEq] at hc
  rw [hres, ← hc]

/-- C3: on a network other than tcp, tcp4 and tcp6, Dial returns a nil
connection and the unsupported-network error, whose text ends with (so
names) the requested network, issues no RoundTripOpt call and leaves the
transport state as it was. -/
theorem dial_unsupported_network {σ : Type} (h : Quic) (rt : RoundTripFn σ) (s : σ)
    (network addr : String)
    (hn : network ≠ "tcp" ∧ network ≠ "tcp4" ∧ network ≠ "tcp6") :
    (Dial h rt s network addr).result = DialReturn.ret none (some (errorsNew
        ("proxy: no support for QUIC proxy connections of type " ++ network))) ∧
      Contains ("proxy: no support for QUIC proxy connections of type " ++ network) network
        = true ∧
      (Dial h rt s network addr).trace = [] ∧
      (Dial h rt s network addr).state = s := by
  have hn2 : ¬ (network = "tcp" ∨ network = "tcp4" ∨ network = "tcp6") := by
    rintro (hc | hc | hc)
    · exact hn.1 hc
    · exact hn.2.1 hc
    · exact hn.2.2 hc
  rw [Dial_unsupported h rt s network addr hn2]
  refine ⟨rfl, ?_, rfl, rfl⟩
  simp only [Contains, String.data_append]
  exact containsList_append_right _ _

/-- C1 at a concrete run: the optimistic call fails with a cannot read
error, the full call succeeds. -/
theorem dial_transient_failure_one_full_call_witness :
    Contains "read udp 10.0.0.1:4433: cannot read from connection" "cannot read " = true ∧
      (Dial sampleClient scripted [(none, some cannotReadError), (some okResponse, none)]
          "tcp" "dest.example:80").trace =
        [{ req := connectRequest "dest.example:80", opt := { OnlyCachedConn := true },
           resp := none, err := some cannotReadError },
         { req := connectRequest "dest.example:80", opt := { OnlyCachedConn := false },
           resp := some okResponse, err := none }] :=
  ⟨by decide,
   dial_transient_failure_one_full_call sampleClient scripted
     [(none, some cannotReadError), (some okResponse, none)] "tcp" "dest.example:80"
     (Or.inl rfl) cannotReadError rfl
     (Or.inr (Or.inr ⟨none, "read udp 10.0.0.1:4433: cannot read from connection", rfl,
       Or.inr (Or.inr (by decide))⟩))⟩

/-- C2 at a concrete run: the optimistic call fails with a handshake error
that has a Timeout method returning false. -/
theorem dial_fatal_failure_no_retry_witness :
    (Dial sampleClient scripted [(none, some handshakeError), (some okResponse, none)]
          "tcp4" "dest.example:80").trace =
        [{ req := connectRequest "dest.example:80", opt := { OnlyCachedConn := true },
           resp := none, err := some handshakeError }] ∧
      (Dial sampleClient scripted [(none, some handshakeError), (some okResponse, none)]
          "tcp4" "dest.example:80").result = DialReturn.ret none (some handshakeError) :=
  dial_fatal_failure_no_retry sampleClient scripted
    [(none, some handshakeError), (some okResponse, none)] "tcp4" "dest.example:80"
    (Or.inr (Or.inl rfl)) (some false) "CryptoHandshakeFailed: proof invalid" rfl
    (by decide) (by decide) (by decide) (by decide)

/-- C3 at a concrete run: the network udp, against a transport that would
have answered 200. -/
theorem dial_unsupported_network_witness :
    (Dial sampleClient scripted [(some okResponse, none)] "udp" "dest.example:80").result =
        DialReturn.ret none (some (errorsNew
          "proxy: no support for QUIC proxy connections of type udp")) ∧
      (Dial sampleClient scripted [(some okResponse, none)] "udp" "dest.example:80").trace
        = [] :=
  have hw := dial_unsupported_network sampleClient scripted [(some okResponse, none)]
    "udp" "dest.example:80" ⟨by decide, by decide, by decide⟩
  ⟨hw.1, hw.2.2.1⟩

/-- C4: on a TCP-family network, when the last RoundTripOpt call of the
trace returned no error and a response with StatusCode 200 whose Body is a
quic.Stream, Dial returns exactly that Body value as the connection, with a
nil error. -/
theorem dial_success_returns_stream {σ : Type} (h : Quic) (rt : RoundTripFn σ) (s : σ)
    (network addr : String)
    (hn : network = "tcp" ∨ network = "tcp4" ∨ network = "tcp6")
    (c : Call) (resp : Response) (d : Dyn)
    (hl : (Dial h rt s network addr).trace.getLast? = some c)
    (herr : c.err = none) (hresp : c.resp = some resp)
    (hs : resp.StatusCode = 200) (hb : resp.Body = some d) (hd : d.isStream = true) :
    (Dial h rt s network addr).result = DialReturn.ret resp.Body none := by
  obtain ⟨c0, hc0, hres⟩ := Dial_result_of_last h rt s network addr hn
  rw [hl, Option.some.injEq] at hc0
  subst hc0
  rw [hres, herr, hresp]
  simp [hs, StatusOK, hb, assertStream, hd]

/-- C5: on a TCP-family network, when the last RoundTripOpt call of the
trace returned no error and a response whose StatusCode is not 200, Dial
returns a nil connection and the proxy-rejected error, whose text is the
fixed opening, the address stored in the client (not the destination),
a colon and a blank, and the Status string of the response. -/
theorem dial_rejects_non_200 {σ : Type} (h : Quic) (rt : RoundTripFn σ) (s : σ)
    (network addr : String)
    (hn : network = "tcp" ∨ network = "tcp4" ∨ network = "tcp6")
    (c : Call) (resp : Response)
    (hl : (Dial h rt s network addr).trace.getLast? = some c)
    (herr : c.err = none) (hresp : c.resp = some resp)
    (hs : resp.StatusCode ≠ 200) :
    (Dial h rt s network addr).result = DialReturn.ret none (some (errorsNew
      ("proxy: failed to read greeting from HTTP proxy at " ++ h.addr ++ ": " ++ resp.Status))) := by
  obtain ⟨c0, hc0, hres⟩ := Dial_result_of_last h rt s network addr hn
  rw [hl, Option.some.injEq] at hc0
  subst hc0
  rw [hres, herr, hresp]
  simp [hs, StatusOK]

/-- C6: on a TCP-family network, when the last RoundTripOpt call of the
trace returned no error and a response with StatusCode 200 whose Body is nil
or is not a quic.Stream, Dial returns a nil connection and the
stream-unwrap-failed error. -/
theorem dial_rejects_non_stream_body {σ : Type} (h : Quic) (rt : RoundTripFn σ) (s : σ)
    (network addr : String)
    (hn : network = "tcp" ∨ network = "tcp4" ∨ network = "tcp6")
    (c : Call) (resp : Response)
    (hl : (Dial h rt s network addr).trace.getLast? = some c)
    (herr : c.err = none) (hresp : c.resp = some resp)
    (hs : resp.StatusCode = 200)
    (hb : resp.Body = none ∨ ∃ d, resp.Body = some d ∧ d.isStream = false) :
    (Dial h rt s network addr).result = DialReturn.ret none (some (errorsNew
      "proxy: failed to convert resp.Body to a quic.Stream")) := by
  obtain ⟨c0, hc0, hres⟩ := Dial_result_of_last h rt s network addr hn
  rw [hl, Option.some.injEq] at hc0
  subst hc0
  rw [hres, herr, hresp]
  rcases hb with hb | ⟨d, hb, hd⟩
  · simp [hs, StatusOK, hb, assertStream]
  · simp [hs, StatusOK, hb, assertStream, hd]

/-- C4 at a concrete run: a cache miss, then 200 with a stream from the full
call. -/
theorem dial_success_returns_stream_witness :
    (Dial sampleClient scripted [(none, some GoError.ErrNoCachedConn), (some okResponse, none)]
        "tcp" "dest.example:80").result = DialReturn.ret (some sampleStream) none :=
  dial_success_returns_stream sampleClient scripted
    [(none, some GoError.ErrNoCachedConn), (some okResponse, none)] "tcp" "dest.example:80"
    (Or.inl rfl)
    { req := connectRequest "dest.example:80", opt := { OnlyCachedConn := false },
      resp := some okResponse, err := none }
    okResponse sampleStream (by decide) rfl rfl rfl rfl rfl

/-- C5 at a concrete run: the optimistic call answers 204 with a stream
body; the error names the proxy address of the client, not the
destination. -/
theorem dial_rejects_non_200_witness :
    (Dial sampleClient scripted
        [(some { Status := "204 No Content", StatusCode := 204, Body := some sampleStream }, none)]
        "tcp6" "dest.example:80").result =
      DialReturn.ret none (some (errorsNew
        "proxy: failed to read greeting from HTTP proxy at proxy.example:443: 204 No Content")) :=
  dial_rejects_non_200 sampleClient scripted
    [(some { Status := "204 No Content", StatusCode := 204, Body := some sampleStream }, none)]
    "tcp6" "dest.example:80" (Or.inr (Or.inr rfl))
    { req := connectRequest "dest.example:80", opt := { OnlyCachedConn := true },
      resp := some { Status := "204 No Content", StatusCode := 204, Body := some sampleStream },
      err := none }
    { Status := "204 No Content", StatusCode := 204, Body := some sampleStream }
    (by decide) rfl rfl (by decide)

/-- C6 at a concrete run: 200 with a body that is no quic.Stream. -/
theorem dial_rejects_non_stream_body_witness :
    (Dial sampleClient scripted
        [(some { Status := "200 OK", StatusCode := 200, Body := some samplePlainBody }, none)]
        "tcp" "dest.example:80").result =
      DialReturn.ret none (some (errorsNew
        "proxy: failed to convert resp.Body to a quic.Stream")) :=
  dial_rejects_non_stream_body sampleClient scripted
    [(some { Status := "200 OK", StatusCode := 200, Body := some samplePlainBody }, none)]
    "tcp" "dest.example:80" (Or.inl rfl)
    { req := connectRequest "dest.example:80", opt := { OnlyCachedConn := true },
      resp := some { Status := "200 OK", StatusCode := 200, Body := some samplePlainBody },
      err := none }
    { Status := "200 OK", StatusCode := 200, Body := some samplePlainBody }
    (by decide) rfl rfl rfl (Or.inr ⟨samplePlainBody, rfl, rfl⟩)

/-- C8: for every network, addr and transport, the RoundTripOpt calls of one
Dial are none, or the optimistic call alone, or the optimistic call followed
by the full call; never more than two, never the full call first; and the
full call is issued only when the optimistic call (the answer of the
transport at the initial state) returned an error: an optimistic call that
returned with a nil error, whatever the response, is never followed by a
second call. -/
theorem dial_call_sequence {σ : Type} (h : Quic) (rt : RoundTripFn σ) (s : σ)
    (network addr : String) :
    ((Dial h rt s network addr).trace.map (fun c => c.opt.OnlyCachedConn) = [] ∨
      (Dial h rt s network addr).trace.map (fun c => c.opt.OnlyCachedConn) = [true] ∨
      (Dial h rt s network addr).trace.map (fun c => c.opt.OnlyCachedConn) = [true, false]) ∧
    (Dial h rt s network addr).trace.length ≤ 2 ∧
    (∀ c, (Dial h rt s network addr).trace.head? = some c →
      c.opt.OnlyCachedConn = true ∧
      c.resp = (rt s (connectRequest addr) { OnlyCachedConn := true }).1.1 ∧
      c.err = (rt s (connectRequest addr) { OnlyCachedConn := true }).1.2) ∧
    (∀ c1 c2, (Dial h rt s network addr).trace = [c1, c2] → c1.err ≠ none) ∧
    (∀ c1, (Dial h rt s network addr).trace.head? = some c1 → c1.err = none →
      (Dial h rt s network addr).trace = [c1]) := by
  by_cases hn : network = "tcp" ∨ network = "tcp4" ∨ network = "tcp6"
  · rw [Dial_trace h rt s network addr hn]
    simp only []
    cases hsr : shouldRetry (rt s (connectRequest addr) { OnlyCachedConn := true }).1.2
    · simp
    · have hne : (rt s (connectRequest addr) { OnlyCachedConn := true }).1.2 ≠ none := by
        intro hc
        rw [hc] at hsr
        simp [shouldRetry] at hsr
      simp only [if_true]
      refine ⟨by simp, by simp, ?_, ?_, ?_⟩
      · intro c hc
        simp only [List.head?_cons, Option.some.injEq] at hc
        subst hc
        exact ⟨rfl, rfl, rfl⟩
      · intro c1 c2 hc
        simp only [List.cons.injEq, and_true] at hc
        rw [← hc.1]
        exact hne
      · intro c1 hc hc2
        simp only [List.head?_cons, Option.some.injEq] at hc
        subst hc
        exact absurd hc2 hne
  · rw [Dial_unsupported h rt s network addr hn]
    simp

/-- C8 at a concrete run: a 500 answer of the optimistic call is not
followed by a full call. -/
theorem dial_call_sequence_witness :
    (Dial sampleClient scripted
        [(some { Status := "500 Internal Server Error", StatusCode := 500, Body := none }, none),
         (some okResponse, none)]
        "tcp" "dest.example:80").trace =
      [{ req := connectRequest "dest.example:80", opt := { OnlyCachedConn := true },
         resp := some { Status := "500 Internal Server Error", StatusCode := 500, Body := none },
         err := none }] :=
  (dial_call_sequence sampleClient scripted
    [(some { Status := "500 Internal Server Error", StatusCode := 500, Body := none }, none),
     (some okResponse, none)]
    "tcp" "dest.example:80").2.2.2.2
    { req := connectRequest "dest.example:80", opt := { OnlyCachedConn := true },
      resp := some { Status := "500 Internal Server Error", StatusCode := 500, Body := none },
      err := none }
    (by decide) rfl

/-- C9: when Dial takes the full phase (its trace is the optimistic call c1
followed by the full call c2), the result is decided by c2 alone: an error
e2 of the full call is returned as it is with a nil connection, whatever e2
and whatever the optimistic error were; a response of the full call is
validated (status, then body); and any other run of Dial on the same client
that takes the full phase and gets the same answer from the full call has
the same result. -/
theorem dial_full_phase_is_final {σ : Type} (h : Quic) (rt : RoundTripFn σ) (s : σ)
    (network addr : String) (c1 c2 : Call)
    (ht : (Dial h rt s network addr).trace = [c1, c2]) :
    (∀ e2, c2.err = some e2 →
      (Dial h rt s network addr).result = DialReturn.ret none (some e2)) ∧
    (∀ resp, c2.err = none → c2.resp = some resp →
      (Dial h rt s network addr).result =
        (if resp.StatusCode ≠ 200 then
          DialReturn.ret none (some (errorsNew
            ("proxy: failed to read greeting from HTTP proxy at " ++ h.addr ++ ": "
              ++ resp.Status)))
        else
          match resp.Body with
          | some d =>
            if d.isStream then DialReturn.ret (some d) none
            else DialReturn.ret none (some (errorsNew
              "proxy: failed to convert resp.Body to a quic.Stream"))
          | none => DialReturn.ret none (some (errorsNew
              "proxy: failed to convert resp.Body to a quic.Stream")))) ∧
    (∀ (τ : Type) (rt2 : RoundTripFn τ) (s2 : τ) (network2 addr2 : String) (b1 b2 : Call),
      (Dial h rt2 s2 network2 addr2).trace = [b1, b2] →
      b2.resp = c2.resp → b2.err = c2.err →
      (Dial h rt2 s2 network2 addr2).result = (Dial h rt s network addr).result) := by
  have key : ∀ (τ : Type) (rt2 : RoundTripFn τ) (s2 : τ) (network2 addr2 : String)
      (b1 b2 : Call), (Dial h rt2 s2 network2 addr2).trace = [b1, b2] →
      (Dial h rt2 s2 network2 addr2).result =
        (match b2.err with
         | some e => DialReturn.ret none (some e)
         | none =>
           match b2.resp with
           | none => DialReturn.nilDeref
           | some resp =>
             if resp.StatusCode ≠ StatusOK then
               DialReturn.ret none (some (errorsNew
                 ("proxy: failed to read greeting from HTTP proxy at " ++ h.addr ++ ": "
                   ++ resp.Status)))
             else if (!(assertStream resp.Body).2) || (assertStream resp.Body).1 = none then
               DialReturn.ret none (some (errorsNew
                 "proxy: failed to convert resp.Body to a quic.Stream"))
             else DialReturn.ret (assertStream resp.Body).1 none) := by
    intro τ rt2 s2 network2 addr2 b1 b2 hb
    have hn : network2 = "tcp" ∨ network2 = "tcp4" ∨ network2 = "tcp6" := by
      by_contra hc
      rw [Dial_unsupported h rt2 s2 network2 addr2 hc] at hb
      simp at hb
    obtain ⟨c0, hc0, hres⟩ := Dial_result_of_last h rt2 s2 network2 addr2 hn
    rw [hb] at hc0
    simp only [List.getLast?_cons_cons, List.getLast?_singleton, Option.some.injEq] at hc0
    rw [hres, ← hc0]
  refine ⟨?_, ?_, ?_⟩
  · intro e2 he2
    rw [key σ rt s network addr c1 c2 ht, he2]
  · intro resp herr hresp
    rw [key σ rt s network addr c1 c2 ht, herr, hresp]
    simp only [StatusOK]
    by_cases hs : resp.StatusCode = 200
    · simp only [hs, ne_eq, not_true_eq_false, if_false]
      rcases hb : resp.Body with _ | d
      · simp [assertStream]
      · cases hd : d.isStream <;> simp [assertStream, hd]
    · simp [hs]
  · intro τ rt2 s2 network2 addr2 b1 b2 hb hr he
    rw [key τ rt2 s2 network2 addr2 b1 b2 hb, key σ rt s network addr c1 c2 ht, hr, he]

/-- C9 at a concrete run: the optimistic call times out, the full call
fails with the cache-miss sentinel, which is transient by itself; Dial
returns the sentinel and does not try again. -/
theorem dial_full_phase_is_final_witness :
    (Dial sampleClient scripted
        [(none, some (GoError.other (some true) "handshake timeout")),
         (none, some GoError.ErrNoCachedConn), (some okResponse, none)]
        "tcp" "dest.example:80").result =
      DialReturn.ret none (some GoError.ErrNoCachedConn) :=
  (dial_full_phase_is_final sampleClient scripted
    [(none, some (GoError.other (some true) "handshake timeout")),
     (none, some GoError.ErrNoCachedConn), (some okResponse, none)]
    "tcp" "dest.example:80"
    { req := connectRequest "dest.example:80", opt := { OnlyCachedConn := true },
      resp := none, err := some (GoError.other (some true) "handshake timeout") }
    { req := connectRequest "dest.example:80", opt := { OnlyCachedConn := false },
      resp := none, err := some GoError.ErrNoCachedConn }
    (by decide)).1 GoError.ErrNoCachedConn rfl

/-- C10: on a TCP-family network, Dial issues at least one call, and every
request it hands to the transport has method CONNECT, Host addr, a URL with
scheme https and host addr (and nothing else set), no body and an empty
header set; the requests are the same whatever the client is. -/
theorem dial_request_shape {σ : Type} (h : Quic) (rt : RoundTripFn σ) (s : σ)
    (network addr : String)
    (hn : network = "tcp" ∨ network = "tcp4" ∨ network = "tcp6") :
    (Dial h rt s network addr).trace ≠ [] ∧
    (∀ c ∈ (Dial h rt s network addr).trace,
      c.req.Method = "CONNECT" ∧ c.req.Host = addr ∧
      c.req.URL = some { Scheme := "https", Opaque := "", Host := addr, Path := "",
                         RawQuery := "" } ∧
      c.req.Body = none ∧ c.req.Header = []) ∧
    (∀ h2 : Quic, (Dial h2 rt s network addr).trace = (Dial h rt s network addr).trace) := by
  refine ⟨?_, ?_, ?_⟩
  · rw [Dial_trace h rt s network addr hn]
    simp only []
    split <;> simp
  · rw [Dial_trace h rt s network addr hn]
    simp only []
    intro c hc
    have hreq : c.req = connectRequest addr := by
      split at hc
      · simp only [List.mem_cons, List.mem_singleton, List.not_mem_nil, or_false] at hc
        rcases hc with rfl | rfl <;> rfl
      · simp only [List.mem_singleton] at hc
        rw [hc]
    rw [hreq]
    exact ⟨rfl, rfl, rfl, rfl, rfl⟩
  · intro h2
    rw [Dial_trace h rt s network addr hn, Dial_trace h2 rt s network addr hn]

/-- C10 at a concrete run: a two-phase Dial to dest.example:80 by a client
whose own address is proxy.example:443 issues calls, and the request of its
full call has the stated shape. -/
theorem dial_request_shape_witness :
    (Dial sampleClient scripted [(none, some GoError.ErrNoCachedConn), (some okResponse, none)]
        "tcp" "dest.example:80").trace ≠ [] ∧
      ((connectRequest "dest.example:80").Method = "CONNECT" ∧
        (connectRequest "dest.example:80").Host = "dest.example:80" ∧
        (connectRequest "dest.example:80").URL =
          some { Scheme := "https", Opaque := "", Host := "dest.example:80", Path := "",
                 RawQuery := "" } ∧
        (connectRequest "dest.example:80").Body = none ∧
        (connectRequest "dest.example:80").Header = []) :=
  ⟨(dial_request_shape sampleClient scripted
      [(none, some GoError.ErrNoCachedConn), (some okResponse, none)] "tcp" "dest.example:80"
      (Or.inl rfl)).1,
   (dial_request_shape sampleClient scripted
      [(none, some GoError.ErrNoCachedConn), (some okResponse, none)] "tcp" "dest.example:80"
      (Or.inl rfl)).2.1
      { req := connectRequest "dest.example:80", opt := { OnlyCachedConn := false },
        resp := some okResponse, err := none }
      (by decide)⟩

/-! ## The address of the client -/

/-- The index of a byte is at least -1. -/
theorem indexByteList_ge (l : List Char) (c : Char) : -1 ≤ indexByteList l c := by
  induction l with
  | nil => simp [indexByteList]
  | cons x xs ih =>
    simp only [indexByteList]
    split_ifs <;> omega

/-- A byte that does not occur has index -1. -/
theorem indexByteList_of_not_mem (l : List Char) (c : Char) (h : c ∉ l) :
    indexByteList l c = -1 := by
  induction l with
  | nil => rfl
  | cons x xs ih =>
    simp only [List.mem_cons, not_or] at h
    have hx : ¬ x = c := fun e => h.1 e.symm
    simp only [indexByteList, if_neg hx, ih h.2]
    rfl

/-- The first occurrence of c in a ++ c :: b, when a is free of c. -/
theorem indexByteList_append_cons (a b : List Char) (c : Char) (h : c ∉ a) :
    indexByteList (a ++ c :: b) c = a.length := by
  induction a with
  | nil => simp [indexByteList]
  | cons x xs ih =>
    simp only [List.mem_cons, not_or] at h
    have hx : ¬ x = c := fun e => h.1 e.symm
    have e := ih h.2
    rw [List.cons_append]
    simp only [indexByteList, if_neg hx, e, List.length_cons]
    split_ifs <;> push_cast <;> omega

/-- A byte that does not occur has last index -1. -/
theorem lastIndexByteList_of_not_mem (l : List Char) (c : Char) (h : c ∉ l) :
    lastIndexByteList l c = -1 := by
  induction l with
  | nil => rfl
  | cons x xs ih =>
    simp only [List.mem_cons, not_or] at h
    have hx : ¬ x = c := fun e => h.1 e.symm
    simp only [lastIndexByteList, ih h.2, if_neg hx]
    rfl

/-- The last occurrence of c in a ++ c :: b, when b is free of c. -/
theorem lastIndexByteList_append_cons (a b : List Char) (c : Char) (h : c ∉ b) :
    lastIndexByteList (a ++ c :: b) c = a.length := by
  induction a with
  | nil => simp [lastIndexByteList, lastIndexByteList_of_not_mem b c h]
  | cons x xs ih =>
    rw [List.cons_append]
    simp only [lastIndexByteList, ih, List.length_cons]
    split_ifs <;> push_cast <;> omega
/-- Dropping a and the separator from a ++ c :: b leaves b. -/
theorem drop_length_succ_append (a b : List Char) (c : Char) :
    (a ++ c :: b).drop (a.length + 1) = b := by
  induction a with
  | nil => rfl
  | cons x xs ih => simp [ih]

/-- Taking the length of a from a ++ b gives a. -/
theorem take_length_append (a b : List Char) : (a ++ b).take a.length = a := by
  induction a with
  | nil => simp
  | cons x xs ih => simp [ih]

/-- SplitHostPort on an address without any colon: missing port. -/
theorem SplitHostPort_no_colon (addr : String) (h : ':' ∉ addr.data) :
    SplitHostPort addr = ("", "", some { Err := "missing port in address", Addr := addr }) := by
  simp only [SplitHostPort, lastIndexByteList_of_not_mem addr.data ':' h]
  rfl

/-- SplitHostPort on host:port, host and port free of colons and brackets. -/
theorem SplitHostPort_host_port (host port : String)
    (h1 : ':' ∉ host.data) (h2 : '[' ∉ host.data) (h3 : ']' ∉ host.data)
    (p1 : ':' ∉ port.data) (p2 : '[' ∉ port.data) (p3 : ']' ∉ port.data) :
    SplitHostPort (host ++ ":" ++ port) = (host, port, none) := by
  have hd : (host ++ ":" ++ port).data = host.data ++ ':' :: port.data := by
    simp [String.data_append]
  have hi : lastIndexByteList (host.data ++ ':' :: port.data) ':' = host.data.length :=
    lastIndexByteList_append_cons _ _ _ p1
  have hhead : ¬ (host.data ++ ':' :: port.data).head? = some '[' := by
    cases hh : host.data with
    | nil => simp
    | cons x xs =>
      rw [hh] at h2
      simp only [List.mem_cons, not_or] at h2
      simp only [List.cons_append, List.head?_cons, Option.some.injEq]
      exact fun e => h2.1 e.symm
  have hb1 : '[' ∉ host.data ++ ':' :: port.data := by
    simp [h2, p2]
  have hb2 : ']' ∉ host.data ++ ':' :: port.data := by
    simp [h3, p3]
  simp only [SplitHostPort, hd, hi, if_neg hhead]
  have hs : sliceList (host.data ++ ':' :: port.data) 0 (host.data.length : Int).toNat
      = host.data := by
    simp only [sliceList, Int.toNat_ofNat, List.drop_zero]
    exact take_length_append _ _
  rw [hs, indexByteList_of_not_mem _ _ h1]
  simp only [splitHostPortRest, hd, List.drop_zero, indexByteList_of_not_mem _ _ hb1,
    indexByteList_of_not_mem _ _ hb2]
  have hdrop : List.drop ((host.data.length : Int) + 1).toNat (host.data ++ ':' :: port.data)
      = port.data := by
    have : ((host.data.length : Int) + 1).toNat = host.data.length + 1 := by omega
    rw [this]
    exact drop_length_succ_append _ _ _
  rw [hdrop]
  have n1 : ¬ ((host.data.length : Int) < 0) := by omega
  have n2 : ¬ ((-1 : Int) ≥ 0) := by omega
  simp only [if_neg n1, if_neg n2]
/-- SplitHostPort on [host]:port, host free of brackets, port free of colons
and brackets. -/
theorem SplitHostPort_bracketed (host port : String)
    (h2 : '[' ∉ host.data) (h3 : ']' ∉ host.data)
    (p1 : ':' ∉ port.data) (p2 : '[' ∉ port.data) (p3 : ']' ∉ port.data) :
    SplitHostPort ("[" ++ host ++ "]:" ++ port) = (host, port, none) := by
  have hd : ("[" ++ host ++ "]:" ++ port).data = '[' :: (host.data ++ ']' :: ':' :: port.data) := by
    simp [String.data_append]
  have hd2 : '[' :: (host.data ++ ']' :: ':' :: port.data)
      = ('[' :: (host.data ++ [']'])) ++ ':' :: port.data := by simp
  have hi : lastIndexByteList ('[' :: (host.data ++ ']' :: ':' :: port.data)) ':'
      = (host.data.length : Int) + 2 := by
    rw [hd2, lastIndexByteList_append_cons _ _ _ p1]
    simp only [List.length_cons, List.length_append, List.length_nil]
    push_cast
    omega
  have he : indexByteList ('[' :: (host.data ++ ']' :: ':' :: port.data)) ']'
      = (host.data.length : Int) + 1 := by
    have : ']' ∉ '[' :: host.data := by simp [h3]
    have h0 := indexByteList_append_cons ('[' :: host.data) (':' :: port.data) ']' this
    simpa using h0
  have hc1 : '[' ∉ host.data ++ ']' :: ':' :: port.data := by simp [h2, p2]
  have hc2 : ']' ∉ ':' :: port.data := by simp [p3]
  simp only [SplitHostPort, hd, hi, he, List.head?_cons, if_true]
  have e1 : ¬ ((host.data.length : Int) + 2 < 0) := by omega
  have e2 : ¬ ((host.data.length : Int) + 1 < 0) := by omega
  have e3 : ¬ ((host.data.length : Int) + 1 + 1 =
      (('[' :: (host.data ++ ']' :: ':' :: port.data)).length : Int)) := by
    simp only [List.length_cons, List.length_append]
    push_cast
    omega
  have e4 : (host.data.length : Int) + 1 + 1 = (host.data.length : Int) + 2 := by omega
  rw [if_neg e1, if_neg e2, if_neg e3, if_pos e4]
  have t1 : ((host.data.length : Int) + 1).toNat = host.data.length + 1 := by omega
  have t2 : ((host.data.length : Int) + 1 + 1).toNat = host.data.length + 2 := by omega
  have t3 : ((host.data.length : Int) + 2 + 1).toNat = host.data.length + 3 := by omega
  have s1 : sliceList ('[' :: (host.data ++ ']' :: ':' :: port.data)) 1 (host.data.length + 1)
      = host.data := by
    simp only [sliceList, List.take_succ_cons, List.drop_succ_cons, List.drop_zero]
    exact take_length_append _ _
  have d1 : List.drop 1 ('[' :: (host.data ++ ']' :: ':' :: port.data))
      = host.data ++ ']' :: ':' :: port.data := rfl
  have d2 : List.drop (host.data.length + 2) ('[' :: (host.data ++ ']' :: ':' :: port.data))
      = ':' :: port.data := by
    rw [List.drop_succ_cons]
    exact drop_length_succ_append _ _ _
  have d3 : List.drop (host.data.length + 3) ('[' :: (host.data ++ ']' :: ':' :: port.data))
      = port.data := by
    rw [List.drop_succ_cons]
    have := drop_length_succ_append (host.data ++ [']']) port.data ':'
    simpa using this
  simp only [splitHostPortRest, hd, t1, t2, t3, s1, d1, d2, d3,
    indexByteList_of_not_mem _ _ hc1, indexByteList_of_not_mem _ _ hc2]
  rfl
/-- A byte that occurs has a non-negative index. -/
theorem indexByteList_of_mem (l : List Char) (c : Char) (h : c ∈ l) :
    indexByteList l c ≥ 0 := by
  induction l with
  | nil => simp at h
  | cons x xs ih =>
    simp only [indexByteList]
    by_cases hx : x = c
    · simp [hx]
    · have hm : c ∈ xs := by
        rcases List.mem_cons.1 h with e | hm
        · exact absurd e.symm hx
        · exact hm
      have := ih hm
      rw [if_neg hx]
      split_ifs <;> omega

/-- The last occurrence of a byte that occurs splits the list: nothing after
it is that byte, and its index is the length of what is before it. -/
theorem lastIndexByteList_split (l : List Char) (c : Char) (h : c ∈ l) :
    ∃ a b, l = a ++ c :: b ∧ c ∉ b ∧ lastIndexByteList l c = a.length := by
  induction l with
  | nil => simp at h
  | cons x xs ih =>
    by_cases hm : c ∈ xs
    · obtain ⟨a, b, hl, hb, hi⟩ := ih hm
      refine ⟨x :: a, b, by rw [hl, List.cons_append], hb, ?_⟩
      simp only [lastIndexByteList, hi, List.length_cons]
      split_ifs <;> push_cast <;> omega
    · have hx : x = c := by
        rcases List.mem_cons.1 h with e | e
        · exact e.symm
        · exact absurd e hm
      refine ⟨[], xs, by rw [hx, List.nil_append], hm, ?_⟩
      simp only [lastIndexByteList, lastIndexByteList_of_not_mem xs c hm, hx, if_true,
        List.length_nil]
      rfl

/-- SplitHostPort on a bracket-free address with two colons or more: too
many colons. -/
theorem SplitHostPort_many_colons (addr : String)
    (h2 : '[' ∉ addr.data) (hc : 2 ≤ addr.data.count ':') :
    SplitHostPort addr =
      ("", "", some { Err := "too many colons in address", Addr := addr }) := by
  have hmem : ':' ∈ addr.data := List.count_pos_iff.1 (by omega)
  obtain ⟨a, b, hl, hb, hi⟩ := lastIndexByteList_split addr.data ':' hmem
  have hca : ':' ∈ a := by
    have h0 : List.count ':' b = 0 := List.count_eq_zero.2 hb
    rw [hl, List.count_append, List.count_cons_self, h0] at hc
    exact List.count_pos_iff.1 (by omega)
  have hhead : ¬ addr.data.head? = some '[' := by
    intro hh
    exact h2 (List.mem_of_mem_head? hh)
  have n1 : ¬ ((a.length : Int) < 0) := by omega
  have hs : sliceList addr.data 0 (a.length : Int).toNat = a := by
    rw [hl]
    simp only [sliceList, Int.toNat_ofNat, List.drop_zero]
    exact take_length_append _ _
  simp only [SplitHostPort, hi, if_neg n1, if_neg hhead, hs,
    if_pos (indexByteList_of_mem a ':' hca)]

/-- C7, as stated, fails: the bracketed IPv6 literal without a port lacks an
explicit port, yet the stored address is neither the configured address
followed by :443 nor the configured address; and for a:b:80 the stored
address is neither of the two either. -/
theorem quic_stored_address_neither_form :
    (∃ c, (QUIC "quic" "[::1]" none none none).1 = some c ∧
        c.addr = "[[::1]]:443" ∧ c.addr ≠ "[::1]" ++ ":443" ∧ c.addr ≠ "[::1]") ∧
      (∃ c, (QUIC "quic" "a:b:80" none none none).1 = some c ∧
        c.addr = "[a:b:80]:443" ∧ c.addr ≠ "a:b:80" ++ ":443" ∧ c.addr ≠ "a:b:80") :=
  ⟨⟨_, rfl, by decide, by decide, by decide⟩, ⟨_, rfl, by decide, by decide, by decide⟩⟩

/-- C7, amended: the address stored by the constructor QUIC, by the form of
the configured address. An address without any colon is stored followed by
:443. An address without brackets and with two colons or more (an
unbracketed IPv6 literal) is stored enclosed in square brackets and followed
by :443. An address of the form host:port (host free of colons and
brackets) or [host]:port (host free of brackets), the port free of colons
and brackets, is stored unchanged. -/
theorem quic_stored_address_by_form (network addr : String) (auth : Option Auth)
    (forward resolver : Option Nat) :
    ∃ c, (QUIC network addr auth forward resolver).1 = some c ∧
      (':' ∉ addr.data → c.addr = addr ++ ":443") ∧
      ('[' ∉ addr.data → ']' ∉ addr.data → 2 ≤ addr.data.count ':' →
        c.addr = "[" ++ addr ++ "]:443") ∧
      (∀ host port : String, addr = host ++ ":" ++ port →
        ':' ∉ host.data → '[' ∉ host.data → ']' ∉ host.data →
        ':' ∉ port.data → '[' ∉ port.data → ']' ∉ port.data → c.addr = addr) ∧
      (∀ host port : String, addr = "[" ++ host ++ "]:" ++ port →
        '[' ∉ host.data → ']' ∉ host.data →
        ':' ∉ port.data → '[' ∉ port.data → ']' ∉ port.data → c.addr = addr) := by
  have hstored : ∃ c, (QUIC network addr auth forward resolver).1 = some c ∧
      c.addr = (if (SplitHostPort addr).2.2 = none then addr else JoinHostPort addr "443") := by
    cases auth with
    | none => exact ⟨_, rfl, rfl⟩
    | some a => exact ⟨_, rfl, rfl⟩
  obtain ⟨c, hc, hca⟩ := hstored
  have hfail : (SplitHostPort addr).2.2 ≠ none → c.addr = JoinHostPort addr "443" := by
    intro hne
    rw [hca, if_neg hne]
  have hok : (SplitHostPort addr).2.2 = none → c.addr = addr := by
    intro he
    rw [hca, if_pos he]
  refine ⟨c, hc, ?_, ?_, ?_, ?_⟩
  · intro hcol
    have hne : (SplitHostPort addr).2.2 ≠ none := by
      rw [SplitHostPort_no_colon addr hcol]
      simp
    rw [hfail hne]
    simp only [JoinHostPort, indexByteList_of_not_mem _ _ hcol]
    have n2 : ¬ ((-1 : Int) ≥ 0) := by omega
    rw [if_neg n2, String.append_assoc]
    rfl
  · intro h2 _ hcount
    have hne : (SplitHostPort addr).2.2 ≠ none := by
      rw [SplitHostPort_many_colons addr h2 hcount]
      simp
    have hcol : ':' ∈ addr.data := List.count_pos_iff.1 (by omega)
    rw [hfail hne]
    simp only [JoinHostPort]
    rw [if_pos (indexByteList_of_mem _ _ hcol), String.append_assoc]
    rfl
  · intro host port he h1 h2 h3 p1 p2 p3
    apply hok
    rw [he, SplitHostPort_host_port host port h1 h2 h3 p1 p2 p3]
  · intro host port he h2 h3 p1 p2 p3
    apply hok
    rw [he, SplitHostPort_bracketed host port h2 h3 p1 p2 p3]

/-- C7 amended, at concrete addresses: a bare host name gets :443, the
unbracketed IPv6 literal ::1 is bracketed and gets :443, and the addresses
proxy.example:8443 and [::1]:8443 are kept. -/
theorem quic_stored_address_by_form_witness :
    (∃ c, (QUIC "quic" "proxy.example" none none none).1 = some c ∧
        c.addr = "proxy.example" ++ ":443") ∧
      (∃ c, (QUIC "quic" "::1" none none none).1 = some c ∧
        c.addr = "[" ++ "::1" ++ "]:443") ∧
      (∃ c, (QUIC "quic" "proxy.example:8443" none none none).1 = some c ∧
        c.addr = "proxy.example:8443") ∧
      (∃ c, (QUIC "quic" "[::1]:8443" none none none).1 = some c ∧
        c.addr = "[::1]:8443") :=
  ⟨(quic_stored_address_by_form "quic" "proxy.example" none none none).imp
      (fun _ hc => ⟨hc.1, hc.2.1 (by decide)⟩),
   (quic_stored_address_by_form "quic" "::1" none none none).imp
      (fun _ hc => ⟨hc.1, hc.2.2.1 (by decide) (by decide) (by decide)⟩),
   (quic_stored_address_by_form "quic" "proxy.example:8443" none none none).imp
      (fun _ hc => ⟨hc.1, hc.2.2.2.1 "proxy.example" "8443" (by decide)
        (by decide) (by decide) (by decide) (by decide) (by decide) (by decide)⟩),
   (quic_stored_address_by_form "quic" "[::1]:8443" none none none).imp
      (fun _ hc => ⟨hc.1, hc.2.2.2.2 "::1" "8443" (by decide)
        (by decide) (by decide) (by decide) (by decide) (by decide)⟩)⟩

/-! ## The transport hooks, and Dial as a whole -/

/-- C11: the client built by QUIC has a transport whose two hooks ignore
the address they are given: GetClientKey returns the stored proxy address
for every string, and DialAddr calls quic.DialAddr with the stored proxy
address, passing the TLS and QUIC configurations through. -/
theorem quic_hooks_pinned_to_proxy (network addr : String) (auth : Option Auth)
    (forward resolver : Option Nat) :
    ∃ c t, (QUIC network addr auth forward resolver).1 = some c ∧
      c.transport = some t ∧
      c.addr = (if (SplitHostPort addr).2.2 = none then addr else JoinHostPort addr "443") ∧
      (∀ key : String, t.GetClientKey key = c.addr) ∧
      (∀ (address : String) (tlsConfig : Option Nat) (cfg : Option Config),
        t.DialAddr address tlsConfig cfg =
          { addr := c.addr, tlsConfig := tlsConfig, cfg := cfg }) ∧
      (∀ a b : String, t.GetClientKey a = t.GetClientKey b) ∧
      (∀ (a b : String) (tlsConfig : Option Nat) (cfg : Option Config),
        (t.DialAddr a tlsConfig cfg).addr = (t.DialAddr b tlsConfig cfg).addr) := by
  cases auth with
  | none =>
    exact ⟨_, _, rfl, rfl, rfl, fun _ => rfl, fun _ _ _ => rfl, fun _ _ => rfl,
      fun _ _ _ _ => rfl⟩
  | some a =>
    exact ⟨_, _, rfl, rfl, rfl, fun _ => rfl, fun _ _ _ => rfl, fun _ _ => rfl,
      fun _ _ _ _ => rfl⟩

/-- C12: Dial is all-or-nothing. For every network, addr and transport,
when each RoundTripOpt call that Dial issues returned a non-nil response
with a nil error, or a non-nil error, Dial returns: either a non-nil
connection with a nil error, or a nil connection with a non-nil error. -/
theorem dial_all_or_nothing {σ : Type} (h : Quic) (rt : RoundTripFn σ) (s : σ)
    (network addr : String)
    (hrt : ∀ c ∈ (Dial h rt s network addr).trace,
      (c.resp ≠ none ∧ c.err = none) ∨ c.err ≠ none) :
    (∃ d, (Dial h rt s network addr).result = DialReturn.ret (some d) none) ∨
      (∃ e, (Dial h rt s network addr).result = DialReturn.ret none (some e)) := by
  by_cases hn : network = "tcp" ∨ network = "tcp4" ∨ network = "tcp6"
  · obtain ⟨c, hc, hres⟩ := Dial_result_of_last h rt s network addr hn
    have hmem : c ∈ (Dial h rt s network addr).trace := List.mem_of_getLast?_eq_some hc
    have hcall := hrt c hmem
    rw [hres]
    rcases he : c.err with _ | e
    · rcases hr : c.resp with _ | resp
      · rcases hcall with ⟨h1, _⟩ | h2
        · exact absurd hr h1
        · exact absurd he h2
      · simp only []
        by_cases hs : resp.StatusCode ≠ StatusOK
        · rw [if_pos hs]
          exact Or.inr ⟨_, rfl⟩
        · rw [if_neg hs]
          rcases hb : resp.Body with _ | d
          · exact Or.inr ⟨errorsNew "proxy: failed to convert resp.Body to a quic.Stream",
              by simp [assertStream]⟩
          · cases hd : d.isStream
            · exact Or.inr ⟨errorsNew "proxy: failed to convert resp.Body to a quic.Stream",
                by simp [assertStream, hd]⟩
            · exact Or.inl ⟨d, by simp [assertStream, hd]⟩
    · exact Or.inr ⟨e, rfl⟩
  · rw [Dial_unsupported h rt s network addr hn]
    exact Or.inr ⟨_, rfl⟩

/-- C12 at a concrete run: a cache miss, then 200 with a body that is no
stream; Dial returns a nil connection and an error. -/
theorem dial_all_or_nothing_witness :
    (∃ d, (Dial sampleClient scripted
        [(none, some GoError.ErrNoCachedConn),
         (some { Status := "200 OK", StatusCode := 200, Body := some samplePlainBody }, none)]
        "tcp" "dest.example:80").result = DialReturn.ret (some d) none) ∨
      (∃ e, (Dial sampleClient scripted
        [(none, some GoError.ErrNoCachedConn),
         (some { Status := "200 OK", StatusCode := 200, Body := some samplePlainBody }, none)]
        "tcp" "dest.example:80").result = DialReturn.ret none (some e)) :=
  dial_all_or_nothing sampleClient scripted
    [(none, some GoError.ErrNoCachedConn),
     (some { Status := "200 OK", StatusCode := 200, Body := some samplePlainBody }, none)]
    "tcp" "dest.example:80" (by decide)

/-- C13: Dial reads nothing of the client but its proxy address. Two clients
with the same stored address, whatever their user, password, hostname,
network, forward and resolver, run against the same transport from the same
state with the same arguments, issue the same calls (each carrying the
request built from addr alone), get the same result and leave the same
transport state. -/
theorem dial_ignores_credentials {σ : Type} (h1 h2 : Quic) (rt : RoundTripFn σ) (s : σ)
    (network addr : String) (ha : h1.addr = h2.addr) :
    (Dial h1 rt s network addr).trace = (Dial h2 rt s network addr).trace ∧
      (Dial h1 rt s network addr).result = (Dial h2 rt s network addr).result ∧
      (Dial h1 rt s network addr).state = (Dial h2 rt s network addr).state ∧
      (∀ c ∈ (Dial h1 rt s network addr).trace, c.req = connectRequest addr) := by
  have heq : Dial h1 rt s network addr = Dial h2 rt s network addr := by
    simp only [Dial, ha]
  refine ⟨by rw [heq], by rw [heq], by rw [heq], ?_⟩
  by_cases hn : network = "tcp" ∨ network = "tcp4" ∨ network = "tcp6"
  · rw [Dial_trace h1 rt s network addr hn]
    simp only []
    intro c hc
    split at hc
    · simp only [List.mem_cons, List.mem_singleton, List.not_mem_nil, or_false] at hc
      rcases hc with rfl | rfl <;> rfl
    · simp only [List.mem_singleton] at hc
      rw [hc]
  · rw [Dial_unsupported h1 rt s network addr hn]
    intro c hc
    simp at hc

/-- C13 at a concrete run: sampleClient and otherClient differ in user,
password, hostname, network, forward and resolver; a two-phase Dial gives
the same calls and the same result for both. -/
theorem dial_ignores_credentials_witness :
    (Dial sampleClient scripted [(none, some GoError.ErrNoCachedConn), (some okResponse, none)]
        "tcp" "dest.example:80").trace =
      (Dial otherClient scripted [(none, some GoError.ErrNoCachedConn), (some okResponse, none)]
        "tcp" "dest.example:80").trace ∧
    (Dial sampleClient scripted [(none, some GoError.ErrNoCachedConn), (some okResponse, none)]
        "tcp" "dest.example:80").result =
      (Dial otherClient scripted [(none, some GoError.ErrNoCachedConn), (some okResponse, none)]
        "tcp" "dest.example:80").result :=
  have hw := dial_ignores_credentials sampleClient otherClient scripted
    [(none, some GoError.ErrNoCachedConn), (some okResponse, none)] "tcp" "dest.example:80" rfl
  ⟨hw.1, hw.2.1⟩

/-! ## The constructor as a whole -/

/-- What QUIC returns: a client and a nil error, the client holding the
address as given when SplitHostPort accepts it, and joined with port 443
otherwise; the hostname is the split host, or the address as given. -/
theorem QUIC_returns (network addr : String) (auth : Option Auth)
    (forward resolver : Option Nat) :
    ∃ c, QUIC network addr auth forward resolver = (some c, none) ∧
      c.addr = (if (SplitHostPort addr).2.2 = none then addr else JoinHostPort addr "443") ∧
      c.hostname = (if (SplitHostPort addr).2.2 = none then (SplitHostPort addr).1 else addr) := by
  cases auth with
  | none => exact ⟨_, rfl, rfl, rfl⟩
  | some a => exact ⟨_, rfl, rfl, rfl⟩

/-- JoinHostPort of a bracket-free host and port 443 is accepted by
SplitHostPort. -/
theorem SplitHostPort_JoinHostPort_443 (addr : String)
    (h2 : '[' ∉ addr.data) (h3 : ']' ∉ addr.data) :
    (SplitHostPort (JoinHostPort addr "443")).2.2 = none := by
  have p1 : ':' ∉ ("443" : String).data := by decide
  have p2 : '[' ∉ ("443" : String).data := by decide
  have p3 : ']' ∉ ("443" : String).data := by decide
  by_cases hcol : ':' ∈ addr.data
  · simp only [JoinHostPort]
    rw [if_pos (indexByteList_of_mem _ _ hcol), SplitHostPort_bracketed addr "443" h2 h3 p1 p2 p3]
  · simp only [JoinHostPort, indexByteList_of_not_mem _ _ hcol]
    have n2 : ¬ ((-1 : Int) ≥ 0) := by omega
    rw [if_neg n2, SplitHostPort_host_port addr "443" hcol h2 h3 p1 p2 p3]

/-- JoinHostPort of a bracketed, colon-free host and port 443 is accepted by
SplitHostPort. -/
theorem SplitHostPort_JoinHostPort_443_bracketed (host : String)
    (h1 : ':' ∉ host.data) (h2 : '[' ∉ host.data) (h3 : ']' ∉ host.data) :
    (SplitHostPort (JoinHostPort ("[" ++ host ++ "]") "443")).2.2 = none := by
  have p1 : ':' ∉ ("443" : String).data := by decide
  have p2 : '[' ∉ ("443" : String).data := by decide
  have p3 : ']' ∉ ("443" : String).data := by decide
  have hcol : ':' ∉ ("[" ++ host ++ "]").data := by
    simp [String.data_append, h1]
  have hj : JoinHostPort ("[" ++ host ++ "]") "443" = "[" ++ host ++ "]:" ++ "443" := by
    simp only [JoinHostPort, indexByteList_of_not_mem _ _ hcol]
    have n2 : ¬ ((-1 : Int) ≥ 0) := by omega
    rw [if_neg n2, String.append_assoc ("[" ++ host) "]" ":"]
    rfl
  rw [hj, SplitHostPort_bracketed host "443" h2 h3 p1 p2 p3]

/-- C14, as stated, fails: for the bracketed IPv6 literal without a port the
constructor stores an address that SplitHostPort rejects, and feeding that
address back into QUIC changes it again. -/
theorem quic_stored_address_not_host_port :
    ∃ c, (QUIC "quic" "[::1]" none none none).1 = some c ∧
      c.addr = "[[::1]]:443" ∧
      (SplitHostPort c.addr).2.2 ≠ none ∧
      ∃ c2, (QUIC "quic" c.addr none none none).1 = some c2 ∧ c2.addr ≠ c.addr :=
  ⟨_, rfl, by decide, by decide, _, rfl, by decide⟩

/-- C14, amended: for every proxy address that SplitHostPort accepts, or
that holds no bracket character (an unbracketed IPv6 literal and the empty
string among them), or that is a bracketed host without colon and without a
port, the address stored by QUIC is a host:port string: SplitHostPort
accepts it, and feeding it back into QUIC, with any other arguments, leaves
it unchanged. -/
theorem quic_stored_address_is_host_port (network addr : String) (auth : Option Auth)
    (forward resolver : Option Nat)
    (hw : (SplitHostPort addr).2.2 = none ∨ ('[' ∉ addr.data ∧ ']' ∉ addr.data) ∨
      ∃ host : String, addr = "[" ++ host ++ "]" ∧
        ':' ∉ host.data ∧ '[' ∉ host.data ∧ ']' ∉ host.data) :
    ∃ c, (QUIC network addr auth forward resolver).1 = some c ∧
      (SplitHostPort c.addr).2.2 = none ∧
      ∀ (network2 : String) (auth2 : Option Auth) (forward2 resolver2 : Option Nat),
        ∃ c2, (QUIC network2 c.addr auth2 forward2 resolver2).1 = some c2 ∧
          c2.addr = c.addr := by
  obtain ⟨c, hc, hca, _⟩ := QUIC_returns network addr auth forward resolver
  have hsplit : (SplitHostPort c.addr).2.2 = none := by
    by_cases hok : (SplitHostPort addr).2.2 = none
    · rw [hca, if_pos hok]
      exact hok
    · rw [hca, if_neg hok]
      rcases hw with hw | ⟨h2, h3⟩ | ⟨host, rfl, h1, h2, h3⟩
      · exact absurd hw hok
      · exact SplitHostPort_JoinHostPort_443 addr h2 h3
      · exact SplitHostPort_JoinHostPort_443_bracketed host h1 h2 h3
  refine ⟨c, by rw [hc], hsplit, ?_⟩
  intro network2 auth2 forward2 resolver2
  obtain ⟨c2, hc2, hca2, _⟩ := QUIC_returns network2 c.addr auth2 forward2 resolver2
  exact ⟨c2, by rw [hc2], by rw [hca2, if_pos hsplit]⟩

/-- C14 amended, at concrete addresses: the unbracketed IPv6 literal ::1 is
stored as [::1]:443, the empty string as :443, and SplitHostPort accepts
both. -/
theorem quic_stored_address_is_host_port_witness :
    (∃ c, (QUIC "quic" "::1" none none none).1 = some c ∧
        (SplitHostPort c.addr).2.2 = none) ∧
      (∃ c, (QUIC "quic" "" none none none).1 = some c ∧
        (SplitHostPort c.addr).2.2 = none) :=
  ⟨(quic_stored_address_is_host_port "quic" "::1" none none none
      (Or.inr (Or.inl ⟨by decide, by decide⟩))).imp (fun _ hc => ⟨hc.1, hc.2.1⟩),
   (quic_stored_address_is_host_port "quic" "" none none none
      (Or.inr (Or.inl ⟨by decide, by decide⟩))).imp (fun _ hc => ⟨hc.1, hc.2.1⟩)⟩

/-- C15: the constructor QUIC never fails and validates nothing. For every
network, address, auth, forward dialer and resolver it returns a non-nil
client and a nil error, storing the network and the collaborators as given;
an address that SplitHostPort rejects, for whatever reason, becomes the
hostname as it is and is stored joined with port 443. -/
theorem quic_never_fails (network addr : String) (auth : Option Auth)
    (forward resolver : Option Nat) :
    ∃ c, QUIC network addr auth forward resolver = (some c, none) ∧
      c.network = network ∧ c.forward = forward ∧ c.resolver = resolver ∧
      (∀ e, (SplitHostPort addr).2.2 = some e →
        c.hostname = addr ∧ c.addr = JoinHostPort addr "443") := by
  cases auth with
  | none =>
    refine ⟨_, rfl, rfl, rfl, rfl, ?_⟩
    intro e he
    have hne : ¬ (SplitHostPort addr).2.2 = none := by rw [he]; simp
    exact ⟨if_neg hne, if_neg hne⟩
  | some a =>
    refine ⟨_, rfl, rfl, rfl, rfl, ?_⟩
    intro e he
    have hne : ¬ (SplitHostPort addr).2.2 = none := by rw [he]; simp
    exact ⟨if_neg hne, if_neg hne⟩

/-- C15 at a concrete address: a:b:80 is rejected by SplitHostPort for its
colons, not for a missing port, and is stored as the host [a:b:80] with
port 443. -/
theorem quic_never_fails_witness :
    (SplitHostPort "a:b:80").2.2 =
        some { Err := "too many colons in address", Addr := "a:b:80" } ∧
      ∃ c, QUIC "" "a:b:80" none none none = (some c, none) ∧
        c.hostname = "a:b:80" ∧ c.addr = "[a:b:80]:443" :=
  ⟨by decide,
   (quic_never_fails "" "a:b:80" none none none).imp
     (fun _ hc => ⟨hc.1,
       (hc.2.2.2.2 { Err := "too many colons in address", Addr := "a:b:80" } (by decide)).1,
       (hc.2.2.2.2 { Err := "too many colons in address", Addr := "a:b:80" } (by decide)).2.trans
         (by decide)⟩)⟩

end Goproxy
